import Mathlib

/-!
Shallow embedding of the incident-analysis pipeline in
`src/Backend/app/pipeline.py` (the `Ai-Analyzer` repository), together with
proofs of the specification claims about it.

External collaborators (the vector store, the embedding provider and the
generative model service) are passed in as explicit function arguments;
a call that may raise a Python exception is modelled as a function into
`Except String _`, and a `try/except` block becomes a `match` on that value.
Python `float` scores are modelled as rationals.
-/

/-! ## Constants from `pipeline.py` -/

/-- `SIMILARITY_THRESHOLD = 0.5` from `pipeline.py`. -/
def SIMILARITY_THRESHOLD : ℚ := 0.5

/-- `CHUNK_SIZE = 1000` from `pipeline.py`. -/
def CHUNK_SIZE : Nat := 1000

/-- `CHUNK_OVERLAP = 200` from `pipeline.py`. -/
def CHUNK_OVERLAP : Nat := 200

/-! ## Data model -/

/-- Per-chunk metadata attached by `ingest_incident`: the three
`incident.get(...)` values, each possibly absent (`none` models Python
`None`). -/
structure ChunkMetadata where
  incident_id : Option String
  severity : Option String
  category : Option String
deriving DecidableEq, Repr

/-- `langchain.schema.Document` as used by the pipeline: a text payload plus
the metadata mapping. -/
structure Document where
  page_content : String
  metadata : ChunkMetadata
deriving DecidableEq, Repr

/-- An incident record passed to `ingest_incident`.  The Python code reads a
dict with `incident.get(key)` / `incident.get(key, default)`; we model the
nine keys it reads, each `none` when the key is absent (values are rendered
to strings by the f-string, so we keep them as strings). -/
structure IncidentRecord where
  incident_id : Option String := none
  timestamp : Option String := none
  category : Option String := none
  severity : Option String := none
  description : Option String := none
  root_cause : Option String := none
  resolution : Option String := none
  impact : Option String := none
  resolution_time_mins : Option String := none
deriving DecidableEq, Repr

/-- Rendering of `incident.get(key)` inside an f-string: Python prints the
value, and prints `None` for an absent key. -/
def pyStr (o : Option String) : String := o.getD "None"

/-! ## Python string primitives used by the pipeline -/

/-- Python whitespace as used by `str.strip()` for ASCII text:
space, tab, newline, carriage return, vertical tab, form feed. -/
def isPythonSpace (c : Char) : Bool :=
  c = ' ' || c = '\t' || c = '\n' || c = '\r' || c = '\x0b' || c = '\x0c'

/-- Python `str.strip()` on a character list: drop leading and trailing
whitespace. -/
def pyStripChars (l : List Char) : List Char :=
  ((l.dropWhile isPythonSpace).reverse.dropWhile isPythonSpace).reverse

/-- Python `str.strip()` with no argument. -/
def pyStrip (s : String) : String := ⟨pyStripChars s.data⟩

/-- Python `sep.join(strings)`: empty for an empty list, otherwise the
elements interleaved with `sep`. -/
def pyJoin (sep : String) : List String → String
  | [] => ""
  | [s] => s
  | s :: rest => s ++ sep ++ pyJoin sep rest

/-- Helper for Python `doc.split("\n")`: accumulate the current line until a
newline, starting a new line after each one. -/
def splitLinesAux : List Char → List Char → List String
  | [], acc => [⟨acc⟩]
  | c :: cs, acc =>
      if c = '\n' then ⟨acc⟩ :: splitLinesAux cs [] else splitLinesAux cs (acc ++ [c])

/-- Python `doc.split("\n")`. -/
def pySplitNL (s : String) : List String := splitLinesAux s.data []

/-! ## Generator (`GeminiLLM`) -/

namespace GeminiLLM

/-- `GeminiLLM.invoke`.  The external generative model
(`G_client.models.generate_content`, returning `response.text`) is the
argument `generate_content`, a black-box function from the prompt to the
response text.  Faithful to the source:

```python
def invoke(self, prompt: str) -> str:
    if not prompt or not prompt.strip():
        raise ValueError("Empty prompt passed to Gemini")
    response = G_client.models.generate_content(...)
    return response.text
```

The raised `ValueError` is the `Except.error` branch; it is produced without
consulting `generate_content`. -/
def invoke (generate_content : String → String) (prompt : String) :
    Except String String :=
  if prompt = "" || pyStrip prompt = "" then
    Except.error "Empty prompt passed to Gemini"
  else
    Except.ok (generate_content prompt)

end GeminiLLM

/-! ## Prompt templates (`PromptTemplates`) -/

namespace PromptTemplates

/-- `PromptTemplates.root_cause`: the f-string from `pipeline.py`, with
`{context}` and `{question}` spliced in. -/
def root_cause (context question : String) : String :=
  "\nYou are a senior Site Reliability Engineer and Incident Response Lead.\n\nYour task is to perform a **root cause analysis** using real operational reasoning.\nDo NOT give generic answers. If data is insufficient, clearly state assumptions.\n\nHISTORICAL INCIDENT DATA\n"
  ++ context ++
  "\n\nCURRENT INCIDENT\n"
  ++ question ++
  "\n\nINSTRUCTIONS\n- Use only the information given above.\n- Correlate patterns across historical incidents.\n- Be concrete and technical.\n- Do not repeat the incident description.\n\n\nPrimary Root Cause:\n- <single most likely cause>\n\nContributing Factors:\n- <factor 1>\n- <factor 2>\n- <factor 3>\n\nEvidence:\n- <specific clues from historical data>\n\nRecommended Immediate Fix:\n- <actionable fix>\n\nLong-Term Preventive Measures:\n- <systemic improvement>\n\nIf analysis is not possible, say:\n\"Insufficient historical data to determine root cause.\"\n"

/-- `PromptTemplates.pattern`: the f-string from `pipeline.py`, with
`{context}` and `{question}` spliced in. -/
def pattern (context question : String) : String :=
  "\nYou are a reliability analyst identifying **recurring patterns** across incidents.\n\n\nHISTORICAL INCIDENT DATA\n\n"
  ++ context ++
  "\n\nFOCUS QUESTION\n"
  ++ question ++
  "\n\nOUTPUT FORMAT\n\nRecurring Patterns:\n- <pattern 1>\n- <pattern 2>\n\nHigh-Risk Components:\n- <component names>\n\nSeverity Trends:\n- <trend>\n\nActionable Recommendations:\n- <recommendation 1>\n- <recommendation 2>\n\nIf no meaningful pattern exists, explicitly state that.\n"

end PromptTemplates

/-! ## Chunker

The text splitter is `langchain.text_splitter.RecursiveCharacterTextSplitter
(chunk_size=1000, chunk_overlap=200)`, library code not part of this
repository's sources; it is modelled from the spec. -/

/-- Sliding bounded windows over a character list: a window of at most
`CHUNK_SIZE` characters, consecutive windows overlapping by `CHUNK_OVERLAP`.
Structural recursion on a fuel argument; each recursive step drops
`CHUNK_SIZE - CHUNK_OVERLAP = 800 > 0` characters, so `cs.length` fuel is
always enough and the fuel-exhausted base case is never the one taken. -/
def windowChunksFuel : Nat → List Char → List (List Char)
  | 0, cs => [cs]
  | fuel + 1, cs =>
      if cs.length ≤ CHUNK_SIZE then [cs]
      else cs.take CHUNK_SIZE :: windowChunksFuel fuel (cs.drop (CHUNK_SIZE - CHUNK_OVERLAP))

/-- Sliding bounded windows over a character list. -/
def windowChunks (cs : List Char) : List (List Char) :=
  windowChunksFuel cs.length cs

/-- Modelled from the spec: `self.text_splitter.split_text` where the
splitter is `RecursiveCharacterTextSplitter(chunk_size=1000,
chunk_overlap=200)` — library code whose implementation is not in this
repository.  Per the spec (§4.1), `split` returns an ordered sequence of
substrings, no chunk is empty, each chunk is bounded by the maximum size
with consecutive chunks overlapping by the configured amount, and an empty
input yields an empty sequence. -/
def split_text (text : String) : List String :=
  if text.data.isEmpty then []
  else (windowChunks text.data).map (fun l => ⟨l⟩)

/-! ## Orchestrator / Ingestor (`IncidentAnalyzer`) -/

namespace IncidentAnalyzer

/-- `IncidentAnalyzer._format_docs`.  Faithful to the source:

```python
def _format_docs(self, docs):
    if not docs:
        return "No similar historical incidents found."
    return "\n\n".join(doc.page_content for doc in docs)
``` -/
def _format_docs (docs : List Document) : String :=
  if docs.isEmpty then "No similar historical incidents found."
  else pyJoin "\n\n" (docs.map Document.page_content)

/-- The canonical incident text built by the f-string inside
`ingest_incident`:

```python
content = f"""
INCIDENT ID: {incident.get('incident_id')}
TIMESTAMP: {incident.get('timestamp')}
CATEGORY: {incident.get('category')}
SEVERITY: {incident.get('severity')}
DESCRIPTION: {incident.get('description')}
ROOT CAUSE: {incident.get('root_cause', 'Unknown')}
RESOLUTION: {incident.get('resolution', 'Unknown')}
IMPACT: {incident.get('impact', 'Unknown')}
RESOLUTION TIME MINS: {incident.get('resolution_time_mins')}
"""
``` -/
def formatIncident (incident : IncidentRecord) : String :=
  "\nINCIDENT ID: " ++ pyStr incident.incident_id ++
  "\nTIMESTAMP: " ++ pyStr incident.timestamp ++
  "\nCATEGORY: " ++ pyStr incident.category ++
  "\nSEVERITY: " ++ pyStr incident.severity ++
  "\nDESCRIPTION: " ++ pyStr incident.description ++
  "\nROOT CAUSE: " ++ incident.root_cause.getD "Unknown" ++
  "\nRESOLUTION: " ++ incident.resolution.getD "Unknown" ++
  "\nIMPACT: " ++ incident.impact.getD "Unknown" ++
  "\nRESOLUTION TIME MINS: " ++ pyStr incident.resolution_time_mins ++ "\n"

/-- The chunk documents built by `ingest_incident` from a record: one
`Document` per chunk of the formatted text, each carrying the record's
`incident_id`, `severity` and `category` as metadata. -/
def mkDocs (incident : IncidentRecord) : List Document :=
  (split_text (formatIncident incident)).map (fun chunk =>
    { page_content := chunk
      metadata := { incident_id := incident.incident_id
                    severity := incident.severity
                    category := incident.category } })

/-- `IncidentAnalyzer.ingest_incident`.  The vector-store write (which also
runs the embedding provider) is `add_documents`; an exception from it is the
`Except.error` branch, absorbed by the surrounding `try/except`.  Faithful
to the source:

```python
try:
    content = f"""...(see formatIncident)..."""
    chunks = self.text_splitter.split_text(content)
    docs = [Document(page_content=chunk, metadata={...}) for chunk in chunks]
    if docs:
        self.vectorstore.add_documents(docs)
        return True
    return False
except Exception as e:
    logger.error(f"Ingest failed: {e}")
    return False
``` -/
def ingest_incident (add_documents : List Document → Except String Unit)
    (incident : IncidentRecord) : Bool :=
  let docs := mkDocs incident
  if docs.isEmpty then false
  else
    match add_documents docs with
    | Except.ok _ => true
    | Except.error _ => false

/-- `IncidentAnalyzer.search_incidents`.  The vector store is the function
`similarity_search_with_score : query ↦ k ↦` either a raw scored result list
or an exception.  Faithful to the source:

```python
try:
    results = self.vectorstore.similarity_search_with_score(query, k)
    if not results:
        return []
    filtered = [doc for doc, score in results if score < SIMILARITY_THRESHOLD]
    return filtered if filtered else [doc for doc, _ in results]
except Exception as e:
    return []
``` -/
def search_incidents
    (similarity_search_with_score : String → Nat → Except String (List (Document × ℚ)))
    (query : String) (k : Nat) : List Document :=
  match similarity_search_with_score query k with
  | Except.error _ => []
  | Except.ok results =>
      if results.isEmpty then []
      else
        let filtered := (results.filter (fun p => p.2 < SIMILARITY_THRESHOLD)).map Prod.fst
        if filtered.isEmpty then results.map Prod.fst else filtered

/-- `IncidentAnalyzer.analyze_root_cause`: retrieval, context rendering,
prompt construction, generation. -/
def analyze_root_cause
    (similarity_search_with_score : String → Nat → Except String (List (Document × ℚ)))
    (generate_content : String → String)
    (query : String) (k : Nat) : Except String String :=
  let docs := search_incidents similarity_search_with_score query k
  let context := _format_docs docs
  let prompt := PromptTemplates.root_cause context query
  GeminiLLM.invoke generate_content prompt

/-- `IncidentAnalyzer.analyze_patterns`: same pipeline with the pattern
template. -/
def analyze_patterns
    (similarity_search_with_score : String → Nat → Except String (List (Document × ℚ)))
    (generate_content : String → String)
    (query : String) (k : Nat) : Except String String :=
  let docs := search_incidents similarity_search_with_score query k
  let context := _format_docs docs
  let prompt := PromptTemplates.pattern context query
  GeminiLLM.invoke generate_content prompt

end IncidentAnalyzer

/-! ## Listing re-parser -/

/-- One character of the regex class `[A-Z _]` from
`parse_incident_string`. -/
def isKeyChar (c : Char) : Bool :=
  ('A' ≤ c && c ≤ 'Z') || c = ' ' || c = '_'

/-- `re.match(r"(?P<k>[A-Z _]+): (?P<v>.+)", line)`: an anchored match of a
non-empty run of key characters, then `": "`, then at least one character
(`.` never matches a newline, and a split line contains none).  Backtracking
cannot shorten the greedy `[A-Z _]+` run usefully — a shorter run is
followed by another key character, never by `':'` — so the run is exactly
the maximal prefix of key characters. -/
def matchKV (line : String) : Option (String × String) :=
  let k := line.data.takeWhile isKeyChar
  match line.data.dropWhile isKeyChar with
  | ':' :: ' ' :: c :: vs => if k.isEmpty then none else some (⟨k⟩, ⟨c :: vs⟩)
  | _ => none

/-- `m.group("k").lower().replace(" ", "_")`: lowercase the key and replace
spaces by underscores. -/
def normalizeKey (k : String) : String :=
  ⟨k.data.map (fun c => if c = ' ' then '_' else c.toLower)⟩

/-- Python dict assignment `d[k] = v` on an insertion-ordered association
list: overwrite in place if the key is present, else append. -/
def dictInsert : List (String × String) → String → String → List (String × String)
  | [], k, v => [(k, v)]
  | p :: rest, k, v =>
      if p.1 = k then (p.1, v) :: rest else p :: dictInsert rest k v

namespace IncidentAnalyzer

/-- `IncidentAnalyzer.parse_incident_string`.  Faithful to the source:

```python
def parse_incident_string(self, doc: str) -> Dict[str, str]:
    incident = {}
    for line in doc.split("\n"):
        m = re.match(r"(?P<k>[A-Z _]+): (?P<v>.+)", line.strip())
        if m:
            incident[m.group("k").lower().replace(" ", "_")] = m.group("v")
    return incident
```

The dict is an insertion-ordered association list with unique keys. -/
def parse_incident_string (doc : String) : List (String × String) :=
  (pySplitNL doc).foldl
    (fun incident line =>
      match matchKV (pyStrip line) with
      | some kv => dictInsert incident (normalizeKey kv.1) kv.2
      | none => incident)
    []

/-- `IncidentAnalyzer.get_incidents`.  The vector store's
`self.vectorstore.get()["documents"]` is the argument: either the list of
all stored document texts or an exception.  Faithful to the source:

```python
try:
    docs = self.vectorstore.get()["documents"]
    return [self.parse_incident_string(d) for d in docs]
except Exception:
    return []
``` -/
def get_incidents (stored_documents : Except String (List String)) :
    List (List (String × String)) :=
  match stored_documents with
  | Except.ok docs => docs.map parse_incident_string
  | Except.error _ => []

end IncidentAnalyzer

/-! ## Derived decompositions used to state the claims -/

/-- The characters of one formatted line `LABEL ++ ": " ++ value`. -/
def kvChars (label value : String) : List Char :=
  label.data ++ ':' :: ' ' :: value.data

/-- The nine `(LABEL, rendered value)` pairs of the canonical incident text,
in source order. -/
def fieldPairs (incident : IncidentRecord) : List (String × String) :=
  [("INCIDENT ID", pyStr incident.incident_id),
   ("TIMESTAMP", pyStr incident.timestamp),
   ("CATEGORY", pyStr incident.category),
   ("SEVERITY", pyStr incident.severity),
   ("DESCRIPTION", pyStr incident.description),
   ("ROOT CAUSE", incident.root_cause.getD "Unknown"),
   ("RESOLUTION", incident.resolution.getD "Unknown"),
   ("IMPACT", incident.impact.getD "Unknown"),
   ("RESOLUTION TIME MINS", pyStr incident.resolution_time_mins)]

/-- A field label as produced by the formatter: non-empty, made of key
characters only (so in particular newline-free), and not starting with
whitespace. -/
abbrev goodLabel (label : String) : Prop :=
  label.data ≠ []
  ∧ isPythonSpace (label.data.headD 'A') = false
  ∧ ∀ c ∈ label.data, isKeyChar c = true ∧ c ≠ '\n'

/-- A rendered field value that survives the format/parse round trip
unchanged: it contains no newline and does not end in whitespace (the
default `'x'` for the empty value is not whitespace, so the empty value is
clean). -/
abbrev cleanValue (value : String) : Prop :=
  (∀ c ∈ value.data, c ≠ '\n')
  ∧ isPythonSpace (value.data.getLastD 'x') = false

/-! ## Concrete inputs for witnesses and counterexamples -/

/-- A concrete document, used by the witness theorems. -/
def docA : Document := { page_content := "chunk A", metadata := ⟨some "INC-A", none, none⟩ }

/-- A second concrete document, used by the witness theorems. -/
def docB : Document := { page_content := "chunk B", metadata := ⟨some "INC-B", none, none⟩ }

/-- A record with only `incident_id` populated, used by witnesses. -/
def recIdOnly : IncidentRecord := { incident_id := some "INC-001" }

/-- A record whose description value embeds a newline that forges a
`SEVERITY:` line, overriding the real severity during re-parsing. -/
def recBadNl : IncidentRecord :=
  { severity := some "Low", description := some "x\nSEVERITY: High" }

/-- A record whose description value ends in a space, which `line.strip()`
discards before matching, so the re-parsed value differs. -/
def recBadWs : IncidentRecord := { description := some "x " }

/-! ## Claims about the Retriever -/

/-- C1: `search_incidents` keeps exactly the below-threshold chunks in order
when at least one exists; falls back to the whole raw list when the raw list
is non-empty but nothing passes the filter; and returns `[]` on an empty raw
list. -/
theorem C1_search_filtering
    (store : String → Nat → Except String (List (Document × ℚ)))
    (query : String) (k : Nat) (raw : List (Document × ℚ))
    (hraw : store query k = Except.ok raw) :
    ((∃ p ∈ raw, p.2 < SIMILARITY_THRESHOLD) →
      IncidentAnalyzer.search_incidents store query k
        = (raw.filter (fun p => p.2 < SIMILARITY_THRESHOLD)).map Prod.fst)
    ∧ ((raw ≠ [] ∧ ∀ p ∈ raw, ¬ p.2 < SIMILARITY_THRESHOLD) →
      IncidentAnalyzer.search_incidents store query k = raw.map Prod.fst)
    ∧ (raw = [] → IncidentAnalyzer.search_incidents store query k = []) := by
  unfold IncidentAnalyzer.search_incidents
  rw [hraw]
  dsimp only
  refine ⟨?_, ?_, ?_⟩
  · rintro ⟨p, hp, hps⟩
    have hne : raw.isEmpty = false := by
      cases raw with
      | nil => cases hp
      | cons a l => rfl
    rw [hne]
    simp only [Bool.false_eq_true, if_false]
    have hfil : ((raw.filter (fun p => p.2 < SIMILARITY_THRESHOLD)).map Prod.fst).isEmpty
        = false := by
      have hmem : p ∈ raw.filter (fun p => p.2 < SIMILARITY_THRESHOLD) := by
        rw [List.mem_filter]
        exact ⟨hp, by simpa using hps⟩
      cases hfe : raw.filter (fun p => p.2 < SIMILARITY_THRESHOLD) with
      | nil => rw [hfe] at hmem; cases hmem
      | cons a l => rfl
    rw [hfil]
    simp only [Bool.false_eq_true, if_false]
  · rintro ⟨hne, hall⟩
    have hne' : raw.isEmpty = false := by
      cases raw with
      | nil => exact absurd rfl hne
      | cons a l => rfl
    rw [hne']
    simp only [Bool.false_eq_true, if_false]
    have hfe : raw.filter (fun p => p.2 < SIMILARITY_THRESHOLD) = [] := by
      rw [List.filter_eq_nil_iff]
      intro p hp
      simpa using hall p hp
    rw [hfe]
    rfl
  · rintro rfl
    rfl

/-- Witness for C1 at the spec's own example scores
`[0.3, 0.4, 0.6, 0.7, 0.8]` (first two below the threshold). -/
theorem C1_search_filtering_witness :
    IncidentAnalyzer.search_incidents
      (fun _ _ => Except.ok
        [(docA, 0.3), (docB, 0.4), (docA, 0.6), (docB, 0.7), (docA, 0.8)])
      "database connections failing" 5 = [docA, docB] := by
  have h := C1_search_filtering
    (fun _ _ => Except.ok
      [(docA, 0.3), (docB, 0.4), (docA, 0.6), (docB, 0.7), (docA, 0.8)])
    "database connections failing" 5
    [(docA, 0.3), (docB, 0.4), (docA, 0.6), (docB, 0.7), (docA, 0.8)] rfl
  have h1 := h.1 ⟨(docA, 0.3), by simp, by norm_num [SIMILARITY_THRESHOLD]⟩
  rw [h1]
  norm_num [SIMILARITY_THRESHOLD]

/-- C4: `search_incidents` never raises; an exception from the vector-store
query is absorbed and yields the empty result, for every query and `k`. -/
theorem C4_search_absorbs_exceptions
    (store : String → Nat → Except String (List (Document × ℚ)))
    (query : String) (k : Nat) (e : String)
    (herr : store query k = Except.error e) :
    IncidentAnalyzer.search_incidents store query k = [] := by
  unfold IncidentAnalyzer.search_incidents
  rw [herr]

/-- Witness for C4: a store that always raises yields `[]`. -/
theorem C4_search_absorbs_exceptions_witness :
    IncidentAnalyzer.search_incidents (fun _ _ => Except.error "connection refused")
      "any query" 5 = [] :=
  C4_search_absorbs_exceptions (fun _ _ => Except.error "connection refused")
    "any query" 5 "connection refused" rfl

/-! ## Claims about the Generator -/

/-- `pyStrip` of the empty string is empty. -/
theorem pyStrip_empty : pyStrip "" = "" := rfl

/-- C3: `invoke` fails with the validation error exactly on prompts that are
empty after trimming whitespace (in particular on the empty prompt), and the
error does not depend on the external model (`∀ g`, same error: no model
call is attempted); on every other prompt no validation error is raised and
the model's text is returned unchanged. -/
theorem C3_invoke_validation (prompt : String) :
    (pyStrip prompt = "" →
      ∀ g, GeminiLLM.invoke g prompt = Except.error "Empty prompt passed to Gemini")
    ∧ (pyStrip prompt ≠ "" →
      ∀ g, GeminiLLM.invoke g prompt = Except.ok (g prompt)) := by
  constructor
  · intro hs g
    unfold GeminiLLM.invoke
    rw [hs]
    simp
  · intro hs g
    have hp : prompt ≠ "" := by
      intro he
      rw [he] at hs
      exact hs pyStrip_empty
    unfold GeminiLLM.invoke
    rw [if_neg]
    simp [hp, hs]

/-- Witness for C3: a whitespace-only prompt is rejected independently of the
model, and a real prompt goes through. -/
theorem C3_invoke_validation_witness :
    GeminiLLM.invoke (fun _ => "answer") " \t\n "
        = Except.error "Empty prompt passed to Gemini"
      ∧ GeminiLLM.invoke (fun _ => "answer") "analyze this"
        = Except.ok "answer" :=
  ⟨(C3_invoke_validation " \t\n ").1 (by decide) (fun _ => "answer"),
   (C3_invoke_validation "analyze this").2 (by decide) (fun _ => "answer")⟩

/-! ## Claims about context rendering -/

/-- C6: the context string is the literal sentinel on an empty retrieval, and
otherwise the retrieved texts joined in order by the blank-line separator
`"\n\n"`: one document yields its text alone, and each further document
contributes `"\n\n"` followed by its text. -/
theorem C6_format_docs (docs : List Document) :
    (docs = [] →
      IncidentAnalyzer._format_docs docs = "No similar historical incidents found.")
    ∧ (∀ d, docs = [d] →
      IncidentAnalyzer._format_docs docs = d.page_content)
    ∧ (∀ d ds, docs = d :: ds → ds ≠ [] →
      IncidentAnalyzer._format_docs docs
        = d.page_content ++ "\n\n" ++ IncidentAnalyzer._format_docs ds) := by
  refine ⟨?_, ?_, ?_⟩
  · rintro rfl; rfl
  · rintro d rfl; rfl
  · rintro d ds rfl hds
    cases ds with
    | nil => exact absurd rfl hds
    | cons e es =>
        show pyJoin "\n\n" (d.page_content :: e.page_content :: es.map Document.page_content)
          = d.page_content ++ "\n\n" ++ IncidentAnalyzer._format_docs (e :: es)
        cases es with
        | nil => rfl
        | cons f fs => rfl

/-- Witness for C6 on concrete lists of zero, one and two documents. -/
theorem C6_format_docs_witness :
    IncidentAnalyzer._format_docs [] = "No similar historical incidents found."
      ∧ IncidentAnalyzer._format_docs [docA] = "chunk A"
      ∧ IncidentAnalyzer._format_docs [docA, docB] = "chunk A" ++ "\n\n" ++ "chunk B" := by
  refine ⟨(C6_format_docs []).1 rfl, ?_, ?_⟩
  · have h := (C6_format_docs [docA]).2.1 docA rfl
    rw [h]
    rfl
  · have h := (C6_format_docs [docA, docB]).2.2 docA [docB] rfl (by decide)
    rw [h]
    have h2 := (C6_format_docs [docB]).2.1 docB rfl
    rw [h2]
    rfl

/-! ## Claims about the Ingestor -/

/-- A string is empty exactly when its character list is. -/
theorem data_eq_nil_iff (s : String) : s.data = [] ↔ s = "" := by
  constructor
  · intro h
    apply String.ext
    rw [h]
  · intro h
    rw [h]

/-- The canonical incident text is never empty: its character list ends with
the final newline of the f-string. -/
theorem formatIncident_ne_empty (incident : IncidentRecord) :
    IncidentAnalyzer.formatIncident incident ≠ "" := by
  intro h
  have hd : (IncidentAnalyzer.formatIncident incident).data = [] :=
    (data_eq_nil_iff _).mpr h
  unfold IncidentAnalyzer.formatIncident at hd
  simp only [String.data_append] at hd
  have h2 := (List.append_eq_nil.mp hd).2
  exact absurd h2 (by decide)

/-- `windowChunksFuel` always produces at least one chunk. -/
theorem windowChunksFuel_ne_nil (fuel : Nat) (cs : List Char) :
    windowChunksFuel fuel cs ≠ [] := by
  cases fuel with
  | zero => exact List.cons_ne_nil _ _
  | succ n =>
      unfold windowChunksFuel
      split
      · exact List.cons_ne_nil _ _
      · exact List.cons_ne_nil _ _

/-- The modelled chunker yields at least one chunk on a non-empty text. -/
theorem split_text_ne_nil (text : String) (h : text ≠ "") :
    split_text text ≠ [] := by
  unfold split_text
  have hd : text.data.isEmpty = false := by
    cases ht : text.data with
    | nil => exact absurd ((data_eq_nil_iff text).mp ht) h
    | cons c cs => rfl
  rw [hd]
  simp only [Bool.false_eq_true, if_false]
  intro hm
  rw [List.map_eq_nil_iff] at hm
  exact windowChunksFuel_ne_nil _ _ hm

/-- `ingest_incident` always builds at least one chunk document. -/
theorem mkDocs_ne_nil (incident : IncidentRecord) :
    IncidentAnalyzer.mkDocs incident ≠ [] := by
  unfold IncidentAnalyzer.mkDocs
  intro h
  rw [List.map_eq_nil_iff] at h
  exact split_text_ne_nil _ (formatIncident_ne_empty incident) h

/-- Every chunk document built from a record carries the record's
`incident_id`, `severity` and `category` as its metadata. -/
theorem mkDocs_metadata (incident : IncidentRecord) :
    ∀ d ∈ IncidentAnalyzer.mkDocs incident,
      d.metadata.incident_id = incident.incident_id
      ∧ d.metadata.severity = incident.severity
      ∧ d.metadata.category = incident.category := by
  intro d hd
  unfold IncidentAnalyzer.mkDocs at hd
  rw [List.mem_map] at hd
  obtain ⟨chunk, _, rfl⟩ := hd
  exact ⟨rfl, rfl, rfl⟩

/-- `ingest_incident` returns `true` exactly when the chunk set is non-empty
and the vector-store write succeeds. -/
theorem ingest_eq_true_iff (add : List Document → Except String Unit)
    (incident : IncidentRecord) :
    IncidentAnalyzer.ingest_incident add incident = true ↔
      IncidentAnalyzer.mkDocs incident ≠ []
      ∧ ∃ u, add (IncidentAnalyzer.mkDocs incident) = Except.ok u := by
  unfold IncidentAnalyzer.ingest_incident
  cases hm : IncidentAnalyzer.mkDocs incident with
  | nil =>
      simp only [List.isEmpty_nil, if_true]
      constructor
      · intro h; cases h
      · rintro ⟨hne, _⟩; exact absurd rfl hne
  | cons d rest =>
      simp only [List.isEmpty_cons, Bool.false_eq_true, if_false]
      cases hadd : add (d :: rest) with
      | ok u =>
          constructor
          · intro _; exact ⟨List.cons_ne_nil _ _, u, rfl⟩
          · intro _; rfl
      | error e =>
          constructor
          · intro h; cases h
          · rintro ⟨_, u, hok⟩
            simp at hok

/-- C2: every chunk written by `ingest_incident` carries the record's
`incident_id`, `severity` and `category` in its metadata; and for a record
with only `incident_id` populated, when the store write succeeds the call
returns `true` and at least one produced chunk has the input id in its
metadata. -/
theorem C2_ingest_metadata (add : List Document → Except String Unit)
    (incident : IncidentRecord) :
    (∀ d ∈ IncidentAnalyzer.mkDocs incident,
        d.metadata.incident_id = incident.incident_id
        ∧ d.metadata.severity = incident.severity
        ∧ d.metadata.category = incident.category)
    ∧ (∀ i, incident = { incident_id := some i } →
        ∀ u, add (IncidentAnalyzer.mkDocs incident) = Except.ok u →
          IncidentAnalyzer.ingest_incident add incident = true
          ∧ ∃ d ∈ IncidentAnalyzer.mkDocs incident,
              d.metadata.incident_id = some i) := by
  refine ⟨mkDocs_metadata incident, ?_⟩
  intro i hrec u hadd
  constructor
  · exact (ingest_eq_true_iff add incident).mpr
      ⟨mkDocs_ne_nil incident, u, hadd⟩
  · cases hm : IncidentAnalyzer.mkDocs incident with
    | nil => exact absurd hm (mkDocs_ne_nil incident)
    | cons d rest =>
        refine ⟨d, List.mem_cons_self d rest, ?_⟩
        have hd := mkDocs_metadata incident d (by rw [hm]; exact List.mem_cons_self d rest)
        rw [hd.1, hrec]

/-- Witness for C2: ingesting the record with only `incident_id = "INC-001"`
into an always-succeeding store returns `true` and produces a chunk tagged
with that id. -/
theorem C2_ingest_metadata_witness :
    IncidentAnalyzer.ingest_incident (fun _ => Except.ok ()) recIdOnly = true
    ∧ ∃ d ∈ IncidentAnalyzer.mkDocs recIdOnly,
        d.metadata.incident_id = some "INC-001" :=
  (C2_ingest_metadata (fun _ => Except.ok ()) recIdOnly).2 "INC-001" rfl () rfl

/-- C5: `ingest_incident` reports failure as `false`, never as an exception:
it returns `false` when chunking yields no chunks or when the store write
(which includes the embedding call) raises, and it returns `true` exactly
when at least one chunk is produced and the store write succeeds.  (Being a
total Lean function into `Bool`, it cannot raise.) -/
theorem C5_ingest_never_raises (add : List Document → Except String Unit)
    (incident : IncidentRecord) :
    (IncidentAnalyzer.mkDocs incident = [] →
      IncidentAnalyzer.ingest_incident add incident = false)
    ∧ (∀ e, add (IncidentAnalyzer.mkDocs incident) = Except.error e →
      IncidentAnalyzer.ingest_incident add incident = false)
    ∧ (IncidentAnalyzer.ingest_incident add incident = true ↔
      IncidentAnalyzer.mkDocs incident ≠ []
      ∧ ∃ u, add (IncidentAnalyzer.mkDocs incident) = Except.ok u) := by
  refine ⟨?_, ?_, ingest_eq_true_iff add incident⟩
  · intro hm
    cases hb : IncidentAnalyzer.ingest_incident add incident with
    | false => rfl
    | true =>
        have := (ingest_eq_true_iff add incident).mp hb
        exact absurd hm this.1
  · intro e he
    cases hb : IncidentAnalyzer.ingest_incident add incident with
    | false => rfl
    | true =>
        obtain ⟨_, u, hok⟩ := (ingest_eq_true_iff add incident).mp hb
        rw [he] at hok
        cases hok

/-- Witness for C5: a raising store yields `false`, a succeeding store
yields `true`, on the concrete one-field record. -/
theorem C5_ingest_never_raises_witness :
    IncidentAnalyzer.ingest_incident (fun _ => Except.error "embedding provider unreachable")
      recIdOnly = false
    ∧ IncidentAnalyzer.ingest_incident (fun _ => Except.ok ()) recIdOnly = true :=
  ⟨(C5_ingest_never_raises (fun _ => Except.error "embedding provider unreachable")
      recIdOnly).2.1 "embedding provider unreachable" rfl,
   ((C5_ingest_never_raises (fun _ => Except.ok ()) recIdOnly).2.2).mpr
      ⟨mkDocs_ne_nil recIdOnly, (), rfl⟩⟩

/-- C9: the formatted canonical text is never empty (missing fields render
as `None` next to the fixed labels), so chunking yields at least one chunk,
the zero-chunks `return False` branch of `ingest_incident` is unreachable,
and the call returns `false` exactly when the external store write raises.
The chunker is modelled from the spec (`split_text`), since the splitter
implementation is library code outside this repository. -/
theorem C9_zero_chunks_unreachable (add : List Document → Except String Unit)
    (incident : IncidentRecord) :
    IncidentAnalyzer.formatIncident incident ≠ ""
    ∧ split_text (IncidentAnalyzer.formatIncident incident) ≠ []
    ∧ IncidentAnalyzer.mkDocs incident ≠ []
    ∧ (IncidentAnalyzer.ingest_incident add incident = false ↔
        ∃ e, add (IncidentAnalyzer.mkDocs incident) = Except.error e) := by
  refine ⟨formatIncident_ne_empty incident,
    split_text_ne_nil _ (formatIncident_ne_empty incident),
    mkDocs_ne_nil incident, ?_⟩
  constructor
  · intro hfalse
    cases hadd : add (IncidentAnalyzer.mkDocs incident) with
    | error e => exact ⟨e, rfl⟩
    | ok u =>
        have : IncidentAnalyzer.ingest_incident add incident = true :=
          (ingest_eq_true_iff add incident).mpr ⟨mkDocs_ne_nil incident, u, hadd⟩
        rw [this] at hfalse
        cases hfalse
  · rintro ⟨e, he⟩
    cases hb : IncidentAnalyzer.ingest_incident add incident with
    | false => rfl
    | true =>
        obtain ⟨_, u, hok⟩ := (ingest_eq_true_iff add incident).mp hb
        rw [he] at hok
        cases hok

/-- Witness for C9: on the concrete one-field record with a raising store,
`ingest_incident` is `false`, and the text/chunk non-emptiness facts hold. -/
theorem C9_zero_chunks_unreachable_witness :
    IncidentAnalyzer.ingest_incident (fun _ => Except.error "boom") recIdOnly = false
    ∧ IncidentAnalyzer.mkDocs recIdOnly ≠ [] :=
  ⟨((C9_zero_chunks_unreachable (fun _ => Except.error "boom") recIdOnly).2.2.2).mpr
      ⟨"boom", rfl⟩,
   (C9_zero_chunks_unreachable (fun _ => Except.error "boom") recIdOnly).2.2.1⟩

/-! ## Claims about the analyze operations -/

/-- An element failing the predicate survives `dropWhile`. -/
theorem mem_dropWhile_of_neg {α : Type} {p : α → Bool} {c : α}
    (hc : p c = false) : ∀ {l : List α}, c ∈ l → c ∈ l.dropWhile p := by
  intro l hl
  induction l with
  | nil => cases hl
  | cons a as ih =>
      by_cases ha : p a
      · rw [List.dropWhile_cons_of_pos ha]
        rcases List.mem_cons.mp hl with h | h
        · rw [h] at hc; rw [hc] at ha; cases ha
        · exact ih h
      · rw [List.dropWhile_cons_of_neg ha]
        exact hl

/-- A string containing a non-whitespace character does not strip to the
empty string. -/
theorem pyStrip_ne_empty_of_mem {s : String} {c : Char}
    (hc : c ∈ s.data) (hsp : isPythonSpace c = false) : pyStrip s ≠ "" := by
  intro h
  have hdata : (pyStrip s).data = [] := (data_eq_nil_iff _).mpr h
  have h1 : c ∈ s.data.dropWhile isPythonSpace := mem_dropWhile_of_neg hsp hc
  have h2 : c ∈ (s.data.dropWhile isPythonSpace).reverse := List.mem_reverse.mpr h1
  have h3 : c ∈ (s.data.dropWhile isPythonSpace).reverse.dropWhile isPythonSpace :=
    mem_dropWhile_of_neg hsp h2
  have h4 : c ∈ ((s.data.dropWhile isPythonSpace).reverse.dropWhile isPythonSpace).reverse :=
    List.mem_reverse.mpr h3
  have h5 : c ∈ (pyStrip s).data := h4
  rw [hdata] at h5
  cases h5

/-- A prompt containing a non-whitespace character passes `invoke`'s
validation and is handed to the model. -/
theorem invoke_ok_of_mem {prompt : String} {c : Char} (hc : c ∈ prompt.data)
    (hsp : isPythonSpace c = false) (g : String → String) :
    GeminiLLM.invoke g prompt = Except.ok (g prompt) := by
  have hs : pyStrip prompt ≠ "" := pyStrip_ne_empty_of_mem hc hsp
  have hp : prompt ≠ "" := by
    intro he
    have : (prompt).data = [] := (data_eq_nil_iff _).mpr he
    rw [this] at hc
    cases hc
  unfold GeminiLLM.invoke
  rw [if_neg]
  simp [hp, hs]

set_option maxRecDepth 8192 in
/-- C8: both analyze operations always hand `invoke` a prompt containing the
fixed non-whitespace template text, so the empty-prompt validation error is
unreachable from them: for every store outcome, model and query (the empty
query included) they return the model's text on the rendered prompt. -/
theorem C8_analyze_validation_unreachable
    (store : String → Nat → Except String (List (Document × ℚ)))
    (g : String → String) (query : String) (k : Nat) :
    IncidentAnalyzer.analyze_root_cause store g query k
      = Except.ok (g (PromptTemplates.root_cause
          (IncidentAnalyzer._format_docs
            (IncidentAnalyzer.search_incidents store query k)) query))
    ∧ IncidentAnalyzer.analyze_patterns store g query k
      = Except.ok (g (PromptTemplates.pattern
          (IncidentAnalyzer._format_docs
            (IncidentAnalyzer.search_incidents store query k)) query)) := by
  constructor
  · unfold IncidentAnalyzer.analyze_root_cause
    apply invoke_ok_of_mem (c := 'Y') ?_ (by decide)
    unfold PromptTemplates.root_cause
    simp only [String.data_append, List.mem_append]
    left; left; left; left
    decide
  · unfold IncidentAnalyzer.analyze_patterns
    apply invoke_ok_of_mem (c := 'Y') ?_ (by decide)
    unfold PromptTemplates.pattern
    simp only [String.data_append, List.mem_append]
    left; left; left; left
    decide

/-! ## Claims about the listing operation -/

/-- C10: `get_incidents` yields exactly one parsed field mapping per stored
document text — so a record split into several chunks, or an id ingested
twice, contributes several entries — and a raising store yields `[]`. -/
theorem C10_get_incidents_per_document (docs : List String) :
    (IncidentAnalyzer.get_incidents (Except.ok docs)).length = docs.length
    ∧ (∀ i : Nat, (IncidentAnalyzer.get_incidents (Except.ok docs))[i]?
        = (docs[i]?).map IncidentAnalyzer.parse_incident_string)
    ∧ (∀ e, IncidentAnalyzer.get_incidents (Except.error e) = []) := by
  refine ⟨?_, ?_, ?_⟩
  · show (docs.map IncidentAnalyzer.parse_incident_string).length = docs.length
    exact List.length_map docs IncidentAnalyzer.parse_incident_string
  · intro i
    show (docs.map IncidentAnalyzer.parse_incident_string)[i]?
      = (docs[i]?).map IncidentAnalyzer.parse_incident_string
    exact List.getElem?_map IncidentAnalyzer.parse_incident_string docs i
  · intro e
    rfl

/-! ## The format/parse round trip (C7) -/

/-- Character decomposition of the `INCIDENT ID` line head. -/
theorem dataLine1 : ("\nINCIDENT ID: " : String).data
    = '\n' :: (("INCIDENT ID" : String).data ++ [':', ' ']) := rfl

/-- Character decomposition of the `TIMESTAMP` line head. -/
theorem dataLine2 : ("\nTIMESTAMP: " : String).data
    = '\n' :: (("TIMESTAMP" : String).data ++ [':', ' ']) := rfl

/-- Character decomposition of the `CATEGORY` line head. -/
theorem dataLine3 : ("\nCATEGORY: " : String).data
    = '\n' :: (("CATEGORY" : String).data ++ [':', ' ']) := rfl

/-- Character decomposition of the `SEVERITY` line head. -/
theorem dataLine4 : ("\nSEVERITY: " : String).data
    = '\n' :: (("SEVERITY" : String).data ++ [':', ' ']) := rfl

/-- Character decomposition of the `DESCRIPTION` line head. -/
theorem dataLine5 : ("\nDESCRIPTION: " : String).data
    = '\n' :: (("DESCRIPTION" : String).data ++ [':', ' ']) := rfl

/-- Character decomposition of the `ROOT CAUSE` line head. -/
theorem dataLine6 : ("\nROOT CAUSE: " : String).data
    = '\n' :: (("ROOT CAUSE" : String).data ++ [':', ' ']) := rfl

/-- Character decomposition of the `RESOLUTION` line head. -/
theorem dataLine7 : ("\nRESOLUTION: " : String).data
    = '\n' :: (("RESOLUTION" : String).data ++ [':', ' ']) := rfl

/-- Character decomposition of the `IMPACT` line head. -/
theorem dataLine8 : ("\nIMPACT: " : String).data
    = '\n' :: (("IMPACT" : String).data ++ [':', ' ']) := rfl

/-- Character decomposition of the `RESOLUTION TIME MINS` line head. -/
theorem dataLine9 : ("\nRESOLUTION TIME MINS: " : String).data
    = '\n' :: (("RESOLUTION TIME MINS" : String).data ++ [':', ' ']) := rfl

/-- Character decomposition of the final newline. -/
theorem dataLineEnd : ("\n" : String).data = ['\n'] := rfl

/-- The canonical incident text, decomposed into its newline-separated
`LABEL: value` lines. -/
theorem formatIncident_data (incident : IncidentRecord) :
    (IncidentAnalyzer.formatIncident incident).data
      = '\n' :: (kvChars "INCIDENT ID" (pyStr incident.incident_id) ++
        '\n' :: (kvChars "TIMESTAMP" (pyStr incident.timestamp) ++
        '\n' :: (kvChars "CATEGORY" (pyStr incident.category) ++
        '\n' :: (kvChars "SEVERITY" (pyStr incident.severity) ++
        '\n' :: (kvChars "DESCRIPTION" (pyStr incident.description) ++
        '\n' :: (kvChars "ROOT CAUSE" (incident.root_cause.getD "Unknown") ++
        '\n' :: (kvChars "RESOLUTION" (incident.resolution.getD "Unknown") ++
        '\n' :: (kvChars "IMPACT" (incident.impact.getD "Unknown") ++
        '\n' :: (kvChars "RESOLUTION TIME MINS" (pyStr incident.resolution_time_mins) ++
        ['\n']))))))))) := by
  simp only [IncidentAnalyzer.formatIncident, kvChars, String.data_append,
    dataLine1, dataLine2, dataLine3, dataLine4, dataLine5, dataLine6, dataLine7,
    dataLine8, dataLine9, dataLineEnd, List.cons_append, List.append_assoc,
    List.nil_append]

/-- The step equation of `splitLinesAux`. -/
theorem splitLinesAux_cons (c : Char) (cs acc : List Char) :
    splitLinesAux (c :: cs) acc
      = if c = '\n' then ⟨acc⟩ :: splitLinesAux cs []
        else splitLinesAux cs (acc ++ [c]) := rfl

/-- `split("\n")` starts a new line at a leading newline. -/
theorem splitLinesAux_cons_nl (r : List Char) (acc : List Char) :
    splitLinesAux ('\n' :: r) acc = ⟨acc⟩ :: splitLinesAux r [] := by
  rw [splitLinesAux_cons, if_pos rfl]

/-- `split("\n")` emits a newline-free prefix as one line. -/
theorem splitLinesAux_line (l : List Char) (r : List Char) (acc : List Char)
    (hl : ∀ c ∈ l, c ≠ '\n') :
    splitLinesAux (l ++ '\n' :: r) acc = ⟨acc ++ l⟩ :: splitLinesAux r [] := by
  induction l generalizing acc with
  | nil =>
      rw [List.nil_append, splitLinesAux_cons_nl, List.append_nil]
  | cons c cs ih =>
      have hc : c ≠ '\n' := hl c (List.mem_cons_self c cs)
      rw [List.cons_append, splitLinesAux_cons, if_neg hc,
        ih (acc ++ [c]) (fun d hd => hl d (List.mem_cons_of_mem c hd)),
        List.append_assoc, List.singleton_append]

/-- The characters of a formatted line are newline-free when the label is
good and the value is clean. -/
theorem kvChars_no_nl {label value : String}
    (hlab : ∀ c ∈ label.data, c ≠ '\n')
    (hval : ∀ c ∈ value.data, c ≠ '\n') :
    ∀ c ∈ kvChars label value, c ≠ '\n' := by
  intro c hc
  unfold kvChars at hc
  rcases List.mem_append.mp hc with h | h
  · exact hlab c h
  · rcases List.mem_cons.mp h with h1 | h2
    · rw [h1]; decide
    · rcases List.mem_cons.mp h2 with h3 | h4
      · rw [h3]; decide
      · exact hval c h4

/-- Splitting the canonical incident text on newlines yields an empty first
line, the nine formatted field lines in order, and an empty last line —
provided no rendered value contains a newline. -/
theorem pySplitNL_formatIncident (incident : IncidentRecord)
    (hnl : ∀ kv ∈ fieldPairs incident, ∀ c ∈ (kv.2 : String).data, c ≠ '\n') :
    pySplitNL (IncidentAnalyzer.formatIncident incident)
      = "" :: ((fieldPairs incident).map
          (fun kv => (⟨kvChars kv.1 kv.2⟩ : String)) ++ [""]) := by
  have h1 := hnl ("INCIDENT ID", pyStr incident.incident_id) (by simp [fieldPairs])
  have h2 := hnl ("TIMESTAMP", pyStr incident.timestamp) (by simp [fieldPairs])
  have h3 := hnl ("CATEGORY", pyStr incident.category) (by simp [fieldPairs])
  have h4 := hnl ("SEVERITY", pyStr incident.severity) (by simp [fieldPairs])
  have h5 := hnl ("DESCRIPTION", pyStr incident.description) (by simp [fieldPairs])
  have h6 := hnl ("ROOT CAUSE", incident.root_cause.getD "Unknown") (by simp [fieldPairs])
  have h7 := hnl ("RESOLUTION", incident.resolution.getD "Unknown") (by simp [fieldPairs])
  have h8 := hnl ("IMPACT", incident.impact.getD "Unknown") (by simp [fieldPairs])
  have h9 := hnl ("RESOLUTION TIME MINS", pyStr incident.resolution_time_mins)
    (by simp [fieldPairs])
  unfold pySplitNL
  rw [formatIncident_data, splitLinesAux_cons_nl,
    splitLinesAux_line _ _ _ (kvChars_no_nl (by decide) h1),
    splitLinesAux_line _ _ _ (kvChars_no_nl (by decide) h2),
    splitLinesAux_line _ _ _ (kvChars_no_nl (by decide) h3),
    splitLinesAux_line _ _ _ (kvChars_no_nl (by decide) h4),
    splitLinesAux_line _ _ _ (kvChars_no_nl (by decide) h5),
    splitLinesAux_line _ _ _ (kvChars_no_nl (by decide) h6),
    splitLinesAux_line _ _ _ (kvChars_no_nl (by decide) h7),
    splitLinesAux_line _ _ _ (kvChars_no_nl (by decide) h8),
    splitLinesAux_line _ _ _ (kvChars_no_nl (by decide) h9)]
  rfl

/-- `getLastD` of a list ending in `a` is `a`. -/
theorem getLastD_append_singleton {α : Type} (l : List α) (a d : α) :
    (l ++ [a]).getLastD d = a := by
  induction l generalizing d with
  | nil => rfl
  | cons x xs ih =>
      rw [List.cons_append, List.getLastD_cons]
      exact ih x

/-- `takeWhile` runs through a prefix on which the predicate holds. -/
theorem takeWhile_append_all {α : Type} (p : α → Bool) (l1 l2 : List α)
    (h : ∀ c ∈ l1, p c = true) :
    (l1 ++ l2).takeWhile p = l1 ++ l2.takeWhile p := by
  induction l1 with
  | nil => simp
  | cons a as ih =>
      rw [List.cons_append, List.takeWhile_cons_of_pos (h a (List.mem_cons_self a as)),
        ih (fun c hc => h c (List.mem_cons_of_mem a hc)), List.cons_append]

/-- `dropWhile` discards a prefix on which the predicate holds. -/
theorem dropWhile_append_all {α : Type} (p : α → Bool) (l1 l2 : List α)
    (h : ∀ c ∈ l1, p c = true) :
    (l1 ++ l2).dropWhile p = l2.dropWhile p := by
  induction l1 with
  | nil => simp
  | cons a as ih =>
      rw [List.cons_append, List.dropWhile_cons_of_pos (h a (List.mem_cons_self a as)),
        ih (fun c hc => h c (List.mem_cons_of_mem a hc))]

/-- `strip()` is the identity on a list whose first and last characters are
not whitespace. -/
theorem pyStripChars_no_trim (c d : Char) (m : List Char)
    (hc : isPythonSpace c = false) (hd : isPythonSpace d = false) :
    pyStripChars (c :: (m ++ [d])) = c :: (m ++ [d]) := by
  unfold pyStripChars
  rw [List.dropWhile_cons_of_neg (by simp [hc])]
  rw [show (c :: (m ++ [d])).reverse = d :: (m.reverse ++ [c]) by simp]
  rw [List.dropWhile_cons_of_neg (by simp [hd])]
  rw [show (d :: (m.reverse ++ [c])).reverse = c :: (m ++ [d]) by simp]

/-- `strip()` on a formatted line with an empty value removes exactly the
trailing space of `": "`. -/
theorem pyStripChars_kv_empty (c : Char) (cs : List Char)
    (hc : isPythonSpace c = false) :
    pyStripChars (c :: (cs ++ [':', ' '])) = c :: (cs ++ [':']) := by
  unfold pyStripChars
  rw [List.dropWhile_cons_of_neg (by simp [hc])]
  rw [show (c :: (cs ++ [':', ' '])).reverse = ' ' :: (':' :: (cs.reverse ++ [c])) by simp]
  rw [List.dropWhile_cons_of_pos (by decide)]
  rw [List.dropWhile_cons_of_neg (by decide)]
  rw [show (':' :: (cs.reverse ++ [c])).reverse = c :: (cs ++ [':']) by simp]

/-- The body of `matchKV` on an explicit character list. -/
theorem matchKV_mk (l : List Char) :
    matchKV ⟨l⟩
      = match l.dropWhile isKeyChar with
        | ':' :: ' ' :: c :: vs =>
            if (l.takeWhile isKeyChar).isEmpty then none
            else some (⟨l.takeWhile isKeyChar⟩, ⟨c :: vs⟩)
        | _ => none := rfl

/-- The regex matches a formatted line with a good label and a clean
non-empty value, recovering the label and the value exactly. -/
theorem matchKV_kv_ne (label value : String) (hlab : goodLabel label)
    (hval : cleanValue value) (hne : value ≠ "") :
    matchKV (pyStrip ⟨kvChars label value⟩) = some (label, value) := by
  obtain ⟨hne0, hhead, hall⟩ := hlab
  obtain ⟨c, cs, hdata⟩ := List.exists_cons_of_ne_nil hne0
  have hvne : value.data ≠ [] := fun h => hne ((data_eq_nil_iff value).mp h)
  rcases List.eq_nil_or_concat value.data with hv | ⟨vinit, vlast, hv⟩
  · exact absurd hv hvne
  have hlastsp : isPythonSpace vlast = false := by
    have h2 := hval.2
    rw [hv, List.concat_eq_append, getLastD_append_singleton] at h2
    exact h2
  have hcsp : isPythonSpace c = false := by
    rw [hdata] at hhead
    simpa using hhead
  have hshape : kvChars label value = c :: ((cs ++ ':' :: ' ' :: vinit) ++ [vlast]) := by
    unfold kvChars
    rw [hdata, hv, List.concat_eq_append]
    simp [List.append_assoc]
  have hstrip : pyStrip ⟨kvChars label value⟩ = ⟨kvChars label value⟩ := by
    show (⟨pyStripChars (kvChars label value)⟩ : String) = _
    rw [hshape, pyStripChars_no_trim c vlast _ hcsp hlastsp]
  rw [hstrip]
  have hkey : ∀ ch ∈ label.data, isKeyChar ch = true := fun ch h => (hall ch h).1
  have htake : (kvChars label value).takeWhile isKeyChar = label.data := by
    unfold kvChars
    rw [takeWhile_append_all _ _ _ hkey, List.takeWhile_cons_of_neg (by decide),
      List.append_nil]
  have hdrop : (kvChars label value).dropWhile isKeyChar = ':' :: ' ' :: value.data := by
    unfold kvChars
    rw [dropWhile_append_all _ _ _ hkey, List.dropWhile_cons_of_neg (by decide)]
  obtain ⟨vc, vrest, hvd⟩ := List.exists_cons_of_ne_nil hvne
  rw [matchKV_mk, hdrop, hvd]
  show (if ((kvChars label value).takeWhile isKeyChar).isEmpty = true then none
        else some ((⟨(kvChars label value).takeWhile isKeyChar⟩ : String),
          (⟨vc :: vrest⟩ : String)))
      = some (label, value)
  rw [htake, hdata]
  rw [if_neg (by simp)]
  rw [← hdata, ← hvd]

/-- A formatted line with an empty value is rejected by the regex: after
stripping, `": "` lost its trailing space. -/
theorem matchKV_kv_empty (label : String) (hlab : goodLabel label) :
    matchKV (pyStrip ⟨kvChars label ""⟩) = none := by
  obtain ⟨hne0, hhead, hall⟩ := hlab
  obtain ⟨c, cs, hdata⟩ := List.exists_cons_of_ne_nil hne0
  have hcsp : isPythonSpace c = false := by
    rw [hdata] at hhead
    simpa using hhead
  have hshape : kvChars label "" = c :: (cs ++ [':', ' ']) := by
    unfold kvChars
    rw [hdata]
    rfl
  have hstrip : pyStrip ⟨kvChars label ""⟩ = ⟨c :: (cs ++ [':'])⟩ := by
    show (⟨pyStripChars (kvChars label "")⟩ : String) = _
    rw [hshape, pyStripChars_kv_empty c cs hcsp]
  rw [hstrip]
  have hkey : ∀ ch ∈ label.data, isKeyChar ch = true := fun ch h => (hall ch h).1
  have hdrop : (c :: (cs ++ [':'])).dropWhile isKeyChar = [':'] := by
    have hsh : c :: (cs ++ [':']) = (c :: cs) ++ [':'] := by simp
    rw [hsh, ← hdata, dropWhile_append_all _ _ _ hkey,
      List.dropWhile_cons_of_neg (by decide)]
  rw [matchKV_mk, hdrop]
  rfl

/-- The step equation of `dictInsert`. -/
theorem dictInsert_cons (p : String × String) (rest : List (String × String))
    (k v : String) :
    dictInsert (p :: rest) k v
      = if p.1 = k then (p.1, v) :: rest else p :: dictInsert rest k v := rfl

/-- Inserting a fresh key into a Python dict appends it. -/
theorem dictInsert_not_mem (d : List (String × String)) (k v : String)
    (h : ∀ p ∈ d, p.1 ≠ k) :
    dictInsert d k v = d ++ [(k, v)] := by
  induction d with
  | nil => rfl
  | cons p rest ih =>
      rw [dictInsert_cons, if_neg (h p (List.mem_cons_self p rest)),
        ih (fun q hq => h q (List.mem_cons_of_mem p hq)), List.cons_append]

/-- Folding the parser's line step over formatted lines with good labels,
clean values, pairwise-distinct normalized keys, all fresh for the starting
dict, appends one entry per non-empty value, in order. -/
theorem parse_fold_lines (pairs : List (String × String)) :
    ∀ acc : List (String × String),
    (∀ kv ∈ pairs, goodLabel kv.1 ∧ cleanValue kv.2) →
    (∀ kv ∈ pairs, ∀ q ∈ acc, q.1 ≠ normalizeKey kv.1) →
    pairs.Pairwise (fun a b => normalizeKey a.1 ≠ normalizeKey b.1) →
    (pairs.map (fun kv => (⟨kvChars kv.1 kv.2⟩ : String))).foldl
      (fun incident line =>
        match matchKV (pyStrip line) with
        | some kv => dictInsert incident (normalizeKey kv.1) kv.2
        | none => incident) acc
      = acc ++ (pairs.filter (fun kv => kv.2 ≠ "")).map
          (fun kv => (normalizeKey kv.1, kv.2)) := by
  induction pairs with
  | nil => intro acc _ _ _; simp
  | cons kv rest ih =>
      intro acc hgood hfresh hdistinct
      obtain ⟨hg, hcv⟩ := hgood kv (List.mem_cons_self kv rest)
      have hgoodr : ∀ q ∈ rest, goodLabel q.1 ∧ cleanValue q.2 :=
        fun q hq => hgood q (List.mem_cons_of_mem kv hq)
      have hdr : rest.Pairwise (fun a b => normalizeKey a.1 ≠ normalizeKey b.1) :=
        (List.pairwise_cons.mp hdistinct).2
      have hhd : ∀ q ∈ rest, normalizeKey kv.1 ≠ normalizeKey q.1 :=
        (List.pairwise_cons.mp hdistinct).1
      rw [List.map_cons, List.foldl_cons]
      by_cases hv : kv.2 = ""
      · have hstep : (match matchKV (pyStrip (⟨kvChars kv.1 kv.2⟩ : String)) with
            | some kv2 => dictInsert acc (normalizeKey kv2.1) kv2.2
            | none => acc) = acc := by
          rw [hv, matchKV_kv_empty kv.1 hg]
        rw [hstep,
          ih acc hgoodr (fun q hq p hp => hfresh q (List.mem_cons_of_mem kv hq) p hp) hdr,
          List.filter_cons, if_neg (by simp [hv])]
      · have hstep : (match matchKV (pyStrip (⟨kvChars kv.1 kv.2⟩ : String)) with
            | some kv2 => dictInsert acc (normalizeKey kv2.1) kv2.2
            | none => acc) = acc ++ [(normalizeKey kv.1, kv.2)] := by
          rw [matchKV_kv_ne kv.1 kv.2 hg hcv hv]
          exact dictInsert_not_mem acc _ _
            (fun p hp => hfresh kv (List.mem_cons_self kv rest) p hp)
        have hfresh2 : ∀ q ∈ rest, ∀ p ∈ acc ++ [(normalizeKey kv.1, kv.2)],
            p.1 ≠ normalizeKey q.1 := by
          intro q hq p hp
          rcases List.mem_append.mp hp with hp1 | hp2
          · exact hfresh q (List.mem_cons_of_mem kv hq) p hp1
          · rw [List.mem_singleton.mp hp2]
            exact hhd q hq
        rw [hstep, ih (acc ++ [(normalizeKey kv.1, kv.2)]) hgoodr hfresh2 hdr,
          List.filter_cons, if_pos (by simp [hv]), List.map_cons,
          List.append_assoc, List.singleton_append]

set_option maxRecDepth 20000 in
/-- C7 counterexample: the round trip does not recover every field whose
line matched the `KEY: value` pattern.  (1) In `recBadNl` the severity line
`SEVERITY: Low` is present in the formatted text and matches the pattern,
yet re-parsing returns severity `"High"` — a newline inside the description
value forged a later `SEVERITY:` line that overwrites the real one.  (2) In
`recBadWs` the description line matches the pattern, yet the re-parsed
value `"x"` differs from the rendered value `"x "`, because `line.strip()`
discards the trailing whitespace before matching. -/
theorem C7_roundtrip_counterexample :
    ("SEVERITY: Low" ∈ pySplitNL (IncidentAnalyzer.formatIncident recBadNl)
      ∧ matchKV (pyStrip "SEVERITY: Low") = some ("SEVERITY", "Low")
      ∧ List.lookup "severity"
          (IncidentAnalyzer.parse_incident_string
            (IncidentAnalyzer.formatIncident recBadNl))
          = some "High")
    ∧ ("DESCRIPTION: x " ∈ pySplitNL (IncidentAnalyzer.formatIncident recBadWs)
      ∧ matchKV (pyStrip "DESCRIPTION: x ") = some ("DESCRIPTION", "x")
      ∧ List.lookup "description"
          (IncidentAnalyzer.parse_incident_string
            (IncidentAnalyzer.formatIncident recBadWs))
          = some "x"
      ∧ pyStr recBadWs.description = "x ") := by
  refine ⟨⟨?_, by decide, by decide⟩, ⟨?_, by decide, by decide, by decide⟩⟩
  · decide
  · decide

/-- C7 amended: for every incident record whose nine rendered field values
each contain no newline and do not end in whitespace, re-parsing the
canonical formatted text recovers exactly the fields with a non-empty
rendered value — one entry per field in canonical order, the key normalized
from uppercase-with-spaces to lowercase-with-underscores, the value
unchanged — while fields with an empty rendered value are silently dropped
(their line does not match the pattern). -/
theorem C7_roundtrip_amended (incident : IncidentRecord)
    (hclean : ∀ kv ∈ fieldPairs incident, cleanValue kv.2) :
    IncidentAnalyzer.parse_incident_string (IncidentAnalyzer.formatIncident incident)
      = ((fieldPairs incident).filter (fun kv => kv.2 ≠ "")).map
          (fun kv => (normalizeKey kv.1, kv.2)) := by
  have hnl : ∀ kv ∈ fieldPairs incident, ∀ c ∈ (kv.2 : String).data, c ≠ '\n' :=
    fun kv hkv => (hclean kv hkv).1
  have hgood : ∀ kv ∈ fieldPairs incident, goodLabel kv.1 ∧ cleanValue kv.2 := by
    intro kv hkv
    refine ⟨?_, hclean kv hkv⟩
    have hmem : kv.1 ∈ (fieldPairs incident).map Prod.fst :=
      List.mem_map_of_mem Prod.fst hkv
    rw [show (fieldPairs incident).map Prod.fst
        = ["INCIDENT ID", "TIMESTAMP", "CATEGORY", "SEVERITY", "DESCRIPTION",
           "ROOT CAUSE", "RESOLUTION", "IMPACT", "RESOLUTION TIME MINS"] from rfl]
        at hmem
    simp only [List.mem_cons, List.not_mem_nil, or_false] at hmem
    rcases hmem with h | h | h | h | h | h | h | h | h <;> rw [h] <;> decide
  have hpw : ((fieldPairs incident).map (fun kv => normalizeKey kv.1)).Pairwise (· ≠ ·) := by
    rw [show (fieldPairs incident).map (fun kv => normalizeKey kv.1)
        = ["incident_id", "timestamp", "category", "severity", "description",
           "root_cause", "resolution", "impact", "resolution_time_mins"] from rfl]
    decide
  have hdistinct : (fieldPairs incident).Pairwise
      (fun a b => normalizeKey a.1 ≠ normalizeKey b.1) := List.pairwise_map.mp hpw
  unfold IncidentAnalyzer.parse_incident_string
  rw [pySplitNL_formatIncident incident hnl]
  rw [List.foldl_cons]
  rw [List.foldl_append]
  rw [parse_fold_lines (fieldPairs incident)
    ((fun incident line =>
        match matchKV (pyStrip line) with
        | some kv => dictInsert incident (normalizeKey kv.1) kv.2
        | none => incident) [] "")
    hgood (fun kv hkv q hq => by cases hq) hdistinct]
  rfl

/-- Witness for C7 (amended): re-parsing the formatted id-only record
recovers all nine fields with normalized keys; missing required fields come
back as the string `"None"` and defaulted ones as `"Unknown"`. -/
theorem C7_roundtrip_amended_witness :
    IncidentAnalyzer.parse_incident_string (IncidentAnalyzer.formatIncident recIdOnly)
      = [("incident_id", "INC-001"), ("timestamp", "None"), ("category", "None"),
         ("severity", "None"), ("description", "None"), ("root_cause", "Unknown"),
         ("resolution", "Unknown"), ("impact", "Unknown"),
         ("resolution_time_mins", "None")] := by
  have hclean : ∀ kv ∈ fieldPairs recIdOnly, cleanValue kv.2 := by
    intro kv hkv
    simp only [fieldPairs, List.mem_cons, List.not_mem_nil, or_false] at hkv
    rcases hkv with h | h | h | h | h | h | h | h | h <;> subst h <;> decide
  rw [C7_roundtrip_amended recIdOnly hclean]
  rfl
